import Mathlib

/-!
Verification of the resilient ESL event-ingestion client
(FreeSWITCH call-lifecycle events persisted to PostgreSQL).

Shallow embedding of the Go source: `esl/esl_client.go` (ESL client,
reconnection manager, event loop, dispatcher, call-lifecycle handlers,
HTTP query API), `store/store.go` (call records and database
operations).  Machine integers are modelled as `Int`/`Nat`; Go `/` and
`%` on integers truncate toward zero, which is `Int.div` / `Int.mod`
in Lean.  A `time.Time` value is modelled by its instant: the signed
number of nanoseconds since the Unix epoch (`time.Unix sec nsec`
denotes the instant `sec * 1e9 + nsec`).
-/

set_option autoImplicit false

namespace GoEsl

/-! ## Integer parsing: `strconv.ParseInt(s, 10, 64)` / `strconv.Atoi`

Go's `ParseInt` with base 10 and bit size 64 accepts an optional sign
followed by one or more decimal digits (no underscores when the base
is given explicitly); it reports an error on an empty string, a bare
sign, any non-digit character, or a value outside the `int64` range.
`Atoi(s)` is `ParseInt(s, 10, 0)` which on a 64-bit platform is the
same function.  An error is modelled as `none`. -/

def int64Max : Int := 2 ^ 63 - 1

def int64Min : Int := -(2 ^ 63)

def digitVal (c : Char) : Option Nat :=
  if '0' ≤ c ∧ c ≤ '9' then some (c.toNat - '0'.toNat) else none

def parseDigitsAux : List Char → Nat → Option Nat
  | [], acc => some acc
  | c :: cs, acc =>
    match digitVal c with
    | some d => parseDigitsAux cs (acc * 10 + d)
    | none => none

/-- One or more decimal digits; `none` on an empty list or a non-digit. -/
def parseDigits : List Char → Option Nat
  | [] => none
  | cs => parseDigitsAux cs 0

/-- Model of `strconv.ParseInt(s, 10, 64)` (and of `strconv.Atoi` on a
64-bit platform).  `none` models a non-nil error. -/
def parseInt64 (s : String) : Option Int :=
  match s.toList with
  | '+' :: rest =>
    (parseDigits rest).bind fun n =>
      if (n : Int) ≤ int64Max then some (n : Int) else none
  | '-' :: rest =>
    (parseDigits rest).bind fun n =>
      if int64Min ≤ -(n : Int) then some (-(n : Int)) else none
  | cs =>
    (parseDigits cs).bind fun n =>
      if (n : Int) ≤ int64Max then some (n : Int) else none

/-! ## Timestamps

`handleChannelCreate` / `handleChannelHangup` convert the
`Event-Date-Timestamp` header (integer microseconds since the epoch)
with `time.Unix(ts/1000000, (ts%1000000)*1000)`.  Go `/` and `%`
truncate toward zero (`Int.tdiv` / `Int.tmod`), and `time.Unix sec ns`
denotes the instant `sec * 1e9 + ns` nanoseconds past the epoch. -/

/-- The instant denoted by `time.Unix sec nsec`, in nanoseconds. -/
def timeUnixNs (sec nsec : Int) : Int := sec * 1000000000 + nsec

/-- The start/end instant the Go handlers compute from a parsed
`Event-Date-Timestamp` value `t` (microseconds):
`time.Unix(t/1000000, (t%1000000)*1000)`. -/
def goEventTimeNs (t : Int) : Int :=
  timeUnixNs (Int.tdiv t 1000000) (Int.tmod t 1000000 * 1000)

/-- The instant the spec prescribes: `floor(ts/1e6)` seconds plus
`(ts mod 1e6) * 1000` nanoseconds (`/` and `%` on `Int` with a positive
divisor are floor division and its nonnegative remainder). -/
def specEventTimeNs (t : Int) : Int :=
  timeUnixNs (t / 1000000) (t % 1000000 * 1000)

/-! ## Messages

A raw ESL event as handed over by the goesl transport library: a set of
header key/value pairs.  `goesl.Message.GetHeader` returns the map
entry, or `""` when the header is absent. -/

structure Message where
  headers : List (String × String)
deriving DecidableEq, Repr

def Message.getHeader (m : Message) (k : String) : String :=
  match m.headers.find? (fun p => p.1 = k) with
  | some p => p.2
  | none => ""

/-! ## Log entries

`utils.NewLogger` configures logrus at `InfoLevel`, so `Info`, `Warn`
and `Error` entries are emitted while `Debug` entries are suppressed;
"elevated severity" in the spec is an emitted level, `Info` or above. -/

inductive LogLevel where
  | debug
  | info
  | warn
  | error
deriving DecidableEq, Repr

def LogLevel.elevated : LogLevel → Bool
  | .debug => false
  | _ => true

structure LogEntry where
  level : LogLevel
  msg : String
deriving DecidableEq, Repr

/-! ## Store: call records and database operations (`store/store.go`)

A `Call` row; `id`/`created_at` are assigned by the database and play
no role in the verified claims, so the model keeps the columns the
client writes: uuid (the natural key, `UNIQUE NOT NULL`), direction,
caller, callee, start_time, and the nullable end_time/status. -/

structure Call where
  uuid : String
  direction : String
  caller : String
  callee : String
  startTimeNs : Int
  endTimeNs : Option Int := none
  status : Option String := none
deriving DecidableEq, Repr

inductive StoreError where
  | duplicateKey
deriving DecidableEq, Repr

/-- `Store.CreateCall`: `INSERT INTO calls ...`.  The `uuid` column is
`UNIQUE`, so inserting a duplicate identifier fails at the database and
`CreateCall` returns that error; otherwise the row is inserted. -/
def createCall (db : List Call) (c : Call) : List Call × Option StoreError :=
  if db.any (fun r => r.uuid = c.uuid) then (db, some .duplicateKey)
  else (db ++ [c], none)

structure UpdateResult where
  db : List Call
  rowsAffected : Nat
  logs : List LogEntry
  err : Option StoreError
deriving Repr

/-- `Store.UpdateCallHangup`: `UPDATE calls SET end_time = $1,
status = $2 WHERE uuid = $3`.  When the `Exec` itself succeeds the
function logs a warning if zero rows were affected, then logs the
"updated" info line and returns nil — it never turns zero rows into an
error. -/
def updateCallHangup (db : List Call) (uuid : String) (endNs : Int)
    (status : String) : UpdateResult :=
  let affected := (db.filter (fun r => r.uuid = uuid)).length
  let db1 := db.map fun r =>
    if r.uuid = uuid then { r with endTimeNs := some endNs, status := some status } else r
  let warnLogs : List LogEntry :=
    if affected = 0 then [⟨.warn, "No call record found to update for hangup"⟩] else []
  { db := db1
    rowsAffected := affected
    logs := warnLogs ++ [⟨.info, "Call record updated with hangup info"⟩]
    err := none }

/-! ## Call-lifecycle handlers and event dispatch (`esl/esl_client.go`)

Each handler is a pure function of the current database contents and
the message; it yields the new database contents, the list of storage
operations it invoked, and the log entries it emitted, in order. -/

inductive StorageCall where
  | create (c : Call)
  | updateHangup (uuid : String) (endNs : Int) (status : String)
deriving DecidableEq, Repr

structure HandlerResult where
  db : List Call
  storageCalls : List StorageCall
  logs : List LogEntry
deriving Repr

/-- `Client.handleChannelCreate`: requires `Event-Date-Timestamp`
(missing → error log, return; unparsable → error log, return), builds
the `store.Call` from the headers and calls `store.CreateCall`. -/
def handleChannelCreate (db : List Call) (msg : Message) (uuid : String) :
    HandlerResult :=
  let logs0 : List LogEntry := [⟨.info, "Handling CHANNEL_CREATE event"⟩]
  let startTimeStr := msg.getHeader "Event-Date-Timestamp"
  if startTimeStr = "" then
    ⟨db, [], logs0 ++ [⟨.error, "Event-Date-Timestamp is missing for CHANNEL_CREATE"⟩]⟩
  else
    match parseInt64 startTimeStr with
    | none =>
      ⟨db, [], logs0 ++ [⟨.error, "Failed to parse start time for CHANNEL_CREATE"⟩]⟩
    | some t =>
      let call : Call :=
        { uuid := uuid
          direction := msg.getHeader "Call-Direction"
          caller := msg.getHeader "Caller-Caller-ID-Number"
          callee := msg.getHeader "Caller-Destination-Number"
          startTimeNs := goEventTimeNs t }
      let logs1 := logs0 ++ [⟨.info, "Parsed call data for CHANNEL_CREATE"⟩]
      let res := createCall db call
      match res.2 with
      | some _ =>
        ⟨res.1, [.create call],
          logs1 ++ [⟨.error, "Failed to create call record from CHANNEL_CREATE"⟩]⟩
      | none =>
        ⟨res.1, [.create call],
          logs1 ++ [⟨.info, "Successfully created call record from CHANNEL_CREATE"⟩]⟩

/-- `Client.handleChannelHangup`: requires `Event-Date-Timestamp` the
same way, then calls `store.UpdateCallHangup` with the computed end
time and the `Hangup-Cause` header. -/
def handleChannelHangup (db : List Call) (msg : Message) (uuid : String) :
    HandlerResult :=
  let logs0 : List LogEntry := [⟨.info, "Handling CHANNEL_HANGUP event"⟩]
  let hangupTimeStr := msg.getHeader "Event-Date-Timestamp"
  if hangupTimeStr = "" then
    ⟨db, [], logs0 ++ [⟨.error, "Event-Date-Timestamp is missing for CHANNEL_HANGUP"⟩]⟩
  else
    match parseInt64 hangupTimeStr with
    | none =>
      ⟨db, [], logs0 ++ [⟨.error, "Failed to parse hangup time for CHANNEL_HANGUP"⟩]⟩
    | some t =>
      let endNs := goEventTimeNs t
      let status := msg.getHeader "Hangup-Cause"
      let logs1 := logs0 ++ [⟨.info, "Parsed hangup data for CHANNEL_HANGUP"⟩]
      let res := updateCallHangup db uuid endNs status
      match res.err with
      | some _ =>
        ⟨res.db, [.updateHangup uuid endNs status],
          logs1 ++ res.logs ++ [⟨.error, "Failed to update call record from CHANNEL_HANGUP"⟩]⟩
      | none =>
        ⟨res.db, [.updateHangup uuid endNs status],
          logs1 ++ res.logs ++ [⟨.info, "Successfully updated call record from CHANNEL_HANGUP"⟩]⟩

/-- `Client.handleEvent`: reads `Event-Name` and `Unique-ID`.  With an
empty `Unique-ID` it returns at once, logging one info line only for
`CHANNEL_CREATE`/`CHANNEL_HANGUP`.  Otherwise it logs the
"Attempting to process" line for those two kinds and switches on the
kind; every other kind falls through the `default` arm untouched. -/
def handleEvent (db : List Call) (msg : Message) : HandlerResult :=
  let eventName := msg.getHeader "Event-Name"
  let uuid := msg.getHeader "Unique-ID"
  if uuid = "" then
    if eventName = "CHANNEL_CREATE" ∨ eventName = "CHANNEL_HANGUP" then
      ⟨db, [], [⟨.info, "Received relevant event with no Unique-ID, skipping"⟩]⟩
    else
      ⟨db, [], []⟩
  else
    let pre : List LogEntry :=
      if eventName = "CHANNEL_CREATE" ∨ eventName = "CHANNEL_HANGUP" then
        [⟨.info, "Attempting to process ESL event"⟩]
      else []
    if eventName = "CHANNEL_CREATE" then
      let r := handleChannelCreate db msg uuid
      ⟨r.db, r.storageCalls, pre ++ r.logs⟩
    else if eventName = "CHANNEL_HANGUP" then
      let r := handleChannelHangup db msg uuid
      ⟨r.db, r.storageCalls, pre ++ r.logs⟩
    else
      ⟨db, [], pre⟩

/-- The instants a handler wrote to storage (start time of an insert,
end time of an update), in order. -/
def HandlerResult.writtenTimes (r : HandlerResult) : List Int :=
  r.storageCalls.map fun sc =>
    match sc with
    | .create c => c.startTimeNs
    | .updateHangup _ endNs _ => endNs

/-! ## The reconnect signal channel

`NewClient` creates `reconnect: make(chan struct{}, 1)` — a buffered
Go channel of capacity 1.  Every post in the source (`Start` on initial
connect/subscribe failure, the event loop on a read failure, the
manager's liveness tick and its delayed retry goroutine, the manager on
a subscribe failure) is a plain blocking send `c.reconnect <- struct{}{}`.
Go semantics of a send on a buffered channel: if the buffer has room
the value is buffered and the sender continues; if the buffer is full
the sender blocks until the value can be delivered — the send is never
discarded.  The state tracks the buffer occupancy and the number of
blocked senders; a receive takes the buffered value and, if a sender is
blocked, moves that sender's value into the buffer. -/

structure SignalChan where
  buffered : Nat
  blocked : Nat
deriving DecidableEq, Repr

def chanCapacity : Nat := 1

def SignalChan.empty : SignalChan := ⟨0, 0⟩

/-- A blocking send `c.reconnect <- struct{}{}` as written everywhere
in the source. -/
def SignalChan.send (c : SignalChan) : SignalChan :=
  if c.buffered < chanCapacity then { c with buffered := c.buffered + 1 }
  else { c with blocked := c.blocked + 1 }

/-- A receive `<-c.reconnect` when a signal is available. -/
def SignalChan.recv (c : SignalChan) : SignalChan :=
  if c.buffered = 0 then c
  else if c.blocked > 0 then { buffered := c.buffered, blocked := c.blocked - 1 }
  else { buffered := c.buffered - 1, blocked := c.blocked }

/-- Signals posted but not yet received: buffered plus those held by
blocked senders, all of which will eventually be delivered. -/
def SignalChan.pendingSignals (c : SignalChan) : Nat :=
  c.buffered + c.blocked

/-- The coalescing post the spec describes (a non-blocking
`select`/`default` send): a duplicate posted while one signal is
pending is dropped.  Stated from the spec's words for comparison with
`SignalChan.send`, the send the source actually performs. -/
def SignalChan.sendCoalescing (c : SignalChan) : SignalChan :=
  if c.buffered < chanCapacity then { c with buffered := c.buffered + 1 }
  else c

/-! ## Reconnection manager: outcome of one reconnect attempt

In `reconnectionManager`, handling one reconnect signal: close any
stale handle, then `connect`.  On connect failure, a goroutine sleeps
5 seconds and then posts the re-signal (a delayed re-signal).  On
connect success it subscribes; on subscribe failure it posts
`c.reconnect <- struct{}{}` directly — an immediate re-signal with no
delay.  On full success no re-signal is posted. -/

inductive Resignal where
  | noSignal
  | immediate
  | delayed (units : Nat)
deriving DecidableEq, Repr

/-- What one pass of the manager's reconnect-signal handler posts,
as a function of whether the connection attempt and the subsequent
event subscription succeed. -/
def reconnectAttempt (connectOk subscribeOk : Bool) : Resignal :=
  if connectOk then
    if subscribeOk then .noSignal
    else .immediate
  else .delayed 5

/-! ## Query API (`api/api.go`): GET /calls

`getCallsHandler` reads the `limit` and `offset` query parameters with
gin's `DefaultQuery` (the default string when the parameter is absent),
parses them with `strconv.Atoi`, and falls back to the defaults when
parsing fails or the value is out of range.  A query parameter is
modelled as `Option String` (`none` = absent). -/

def defaultLimit : Int := 10

def maxLimit : Int := 100

def defaultOffset : Int := 0

/-- The limit passed to `store.GetCalls`:
`limit, err := strconv.Atoi(limitStr); if err != nil || limit <= 0 ||
limit > maxLimit { limit = defaultLimit }`. -/
def effectiveLimit (limitParam : Option String) : Int :=
  let limitStr := limitParam.getD "10"
  match parseInt64 limitStr with
  | none => defaultLimit
  | some v => if v ≤ 0 ∨ v > maxLimit then defaultLimit else v

/-- The offset passed to `store.GetCalls`:
`offset, err := strconv.Atoi(offsetStr); if err != nil || offset < 0 {
offset = defaultOffset }`. -/
def effectiveOffset (offsetParam : Option String) : Int :=
  let offsetStr := offsetParam.getD "0"
  match parseInt64 offsetStr with
  | none => defaultOffset
  | some v => if v < 0 then defaultOffset else v

/-! ## GET /calls response body

`store.GetCalls` builds its result with `var calls []Call` plus
`append`, so with zero rows it returns the nil slice; Go's
`encoding/json` renders a nil slice as `null` and an empty non-nil
slice as `[]`.  A Go slice is modelled as `Option (List Call)` with
`none` for the nil slice. -/

inductive JsonBody where
  | jnull
  | jcalls (xs : List Call)
  | jerror (msg : String)
deriving DecidableEq, Repr

structure HttpResponse where
  status : Nat
  body : JsonBody
deriving DecidableEq, Repr

/-- JSON encoding of a `[]store.Call` value. -/
def renderCallSlice : Option (List Call) → JsonBody
  | none => .jnull
  | some xs => .jcalls xs

/-- The tail of `getCallsHandler` after the store call: on a store
error respond 500; otherwise replace a nil slice by the empty slice
(`if calls == nil { calls = []store.Call{} }`) and respond 200 with
the JSON-encoded slice. -/
def getCallsRespond (storeResult : Except Unit (Option (List Call))) :
    HttpResponse :=
  match storeResult with
  | .error _ => ⟨500, .jerror "Failed to retrieve calls"⟩
  | .ok calls =>
    let calls := if calls = none then some [] else calls
    ⟨200, renderCallSlice calls⟩

/-- `postN n`: the channel state after `n` consecutive reconnect-signal
posts starting from the fresh channel `NewClient` creates (e.g. `n`
consecutive read failures in the event loop with no intervening
receive). -/
def postN : Nat → SignalChan
  | 0 => SignalChan.empty
  | n + 1 => (postN n).send

/-- The limit the claim prescribes for GET /calls, stated from the
claim's words: the parameter's integer value when it lies in
`[1, 100]`; the default 10 when the parameter is absent, non-numeric,
zero or negative, or greater than 100. -/
def claimLimit : Option String → Int
  | none => 10
  | some s =>
    match parseInt64 s with
    | some v => if 1 ≤ v ∧ v ≤ 100 then v else 10
    | none => 10

/-- The offset the claim prescribes for GET /calls, stated from the
claim's words: the parameter's value when it is a non-negative
integer, and 0 otherwise. -/
def claimOffset : Option String → Int
  | none => 0
  | some s =>
    match parseInt64 s with
    | some v => if 0 ≤ v then v else 0
    | none => 0

/-! ## Client.Close -/

/-- An open connection handle, carrying the error its `Close()` would
return (`none` = nil error). -/
structure ConnHandle where
  closeResult : Option String
deriving DecidableEq, Repr

/-- `Client.Close`: with a handle held, return `c.conn.Close()`;
with `c.conn == nil`, log and return nil. -/
def clientClose (conn : Option ConnHandle) : Option String :=
  match conn with
  | some h => h.closeResult
  | none => none

/-! ## Helper lemmas -/

lemma parseInt64_empty_eq_none : parseInt64 "" = none := by decide

lemma parse_some_ne_empty {s : String} {t : Int} (h : parseInt64 s = some t) :
    s ≠ "" := by
  intro he
  rw [he, parseInt64_empty_eq_none] at h
  exact Option.noConfusion h

/-- Go truncating division and the spec's floor division produce the
same instant once seconds and nanoseconds are recombined. -/
lemma goEventTimeNs_eq_spec (t : Int) : goEventTimeNs t = specEventTimeNs t := by
  unfold goEventTimeNs specEventTimeNs timeUnixNs
  have h1 := Int.tdiv_add_tmod t 1000000
  have h2 := Int.ediv_add_emod t 1000000
  linarith

lemma handleChannelCreate_of_parse (db : List Call) (msg : Message)
    (uuid : String) (t : Int)
    (h : parseInt64 (msg.getHeader "Event-Date-Timestamp") = some t) :
    (handleChannelCreate db msg uuid).storageCalls =
      [StorageCall.create
        { uuid := uuid
          direction := msg.getHeader "Call-Direction"
          caller := msg.getHeader "Caller-Caller-ID-Number"
          callee := msg.getHeader "Caller-Destination-Number"
          startTimeNs := goEventTimeNs t }] := by
  unfold handleChannelCreate
  rw [if_neg (parse_some_ne_empty h), h]
  dsimp only
  split <;> rfl

lemma handleChannelHangup_of_parse (db : List Call) (msg : Message)
    (uuid : String) (t : Int)
    (h : parseInt64 (msg.getHeader "Event-Date-Timestamp") = some t) :
    (handleChannelHangup db msg uuid).storageCalls =
      [StorageCall.updateHangup uuid (goEventTimeNs t)
        (msg.getHeader "Hangup-Cause")] := by
  unfold handleChannelHangup
  rw [if_neg (parse_some_ne_empty h), h]
  dsimp only
  split <;> rfl

/-- With a parsable timestamp, `handleChannelHangup` takes the success
branch (the update returns a nil error) and its log trace is the two
handler info lines, the update's own log entries, and the success
line. -/
lemma handleChannelHangup_logs_of_parse (db : List Call) (msg : Message)
    (uuid : String) (t : Int)
    (h : parseInt64 (msg.getHeader "Event-Date-Timestamp") = some t) :
    (handleChannelHangup db msg uuid).logs =
      [LogEntry.mk .info "Handling CHANNEL_HANGUP event",
       LogEntry.mk .info "Parsed hangup data for CHANNEL_HANGUP"] ++
      (updateCallHangup db uuid (goEventTimeNs t) (msg.getHeader "Hangup-Cause")).logs ++
      [LogEntry.mk .info "Successfully updated call record from CHANNEL_HANGUP"] := by
  unfold handleChannelHangup
  rw [if_neg (parse_some_ne_empty h), h]
  rfl

lemma handleChannelCreate_of_parse_fail (db : List Call) (msg : Message)
    (uuid : String)
    (h : parseInt64 (msg.getHeader "Event-Date-Timestamp") = none) :
    (handleChannelCreate db msg uuid).storageCalls = [] ∧
    (handleChannelCreate db msg uuid).db = db := by
  unfold handleChannelCreate
  by_cases he : msg.getHeader "Event-Date-Timestamp" = ""
  · rw [if_pos he]
    exact ⟨rfl, rfl⟩
  · rw [if_neg he, h]
    exact ⟨rfl, rfl⟩

lemma handleChannelHangup_of_parse_fail (db : List Call) (msg : Message)
    (uuid : String)
    (h : parseInt64 (msg.getHeader "Event-Date-Timestamp") = none) :
    (handleChannelHangup db msg uuid).storageCalls = [] ∧
    (handleChannelHangup db msg uuid).db = db := by
  unfold handleChannelHangup
  by_cases he : msg.getHeader "Event-Date-Timestamp" = ""
  · rw [if_pos he]
    exact ⟨rfl, rfl⟩
  · rw [if_neg he, h]
    exact ⟨rfl, rfl⟩

lemma send_pendingSignals (c : SignalChan) :
    c.send.pendingSignals = c.pendingSignals + 1 := by
  unfold SignalChan.send SignalChan.pendingSignals
  split <;> simp <;> omega


lemma send_buffered_le (c : SignalChan) (h : c.buffered ≤ chanCapacity) :
    c.send.buffered ≤ chanCapacity := by
  unfold SignalChan.send
  split
  · show c.buffered + 1 ≤ chanCapacity
    unfold chanCapacity at *
    omega
  · exact h

lemma postN_pendingSignals (n : Nat) : (postN n).pendingSignals = n := by
  induction n with
  | zero => rfl
  | succ k ih => rw [postN, send_pendingSignals, ih]

lemma postN_buffered_le (n : Nat) : (postN n).buffered ≤ chanCapacity := by
  induction n with
  | zero => decide
  | succ k ih => exact send_buffered_le _ ih

/-! ## Claim theorems -/

/-- Claim C1, counterexample.  The claim states that a reconnect-signal
post made while one signal is already pending is dropped rather than
queued, so that at most one signal is ever pending regardless of the
number N of consecutive read failures.  In the source every post is a
plain blocking send on the capacity-1 channel, so the duplicate blocks
its sender and is delivered later: after N = 2 consecutive posts two
signals are pending delivery, and the state differs from the one the
claimed coalescing (drop) semantics would produce. -/
theorem c1_signal_coalescing_counterexample :
    (postN 2).pendingSignals = 2 ∧
    ¬ (postN 2).pendingSignals ≤ 1 ∧
    postN 2 ≠ SignalChan.empty.sendCoalescing.sendCoalescing := by
  decide

/-- Claim C1, amended.  The reconnect channel has capacity 1, so at
most one signal is ever buffered; but a duplicate post made while the
buffer is full is queued — the blocking send parks its sender, the
signal count pending delivery grows by one, and after N consecutive
posts all N signals are pending delivery (at most one of them in the
buffer) — rather than being dropped. -/
theorem c1_duplicate_post_queued_not_dropped (c : SignalChan)
    (h : c.buffered = chanCapacity) :
    c.send = { c with blocked := c.blocked + 1 } ∧
    c.send.pendingSignals = c.pendingSignals + 1 ∧
    (∀ n : Nat, (postN n).pendingSignals = n) ∧
    (∀ n : Nat, (postN n).buffered ≤ chanCapacity) := by
  refine ⟨?_, send_pendingSignals c, postN_pendingSignals, postN_buffered_le⟩
  unfold SignalChan.send
  rw [if_neg (by omega)]

/-- Witness for the amended claim C1 theorem at the channel state with
one buffered signal and no blocked sender. -/
theorem c1_duplicate_post_queued_not_dropped_witness :
    (SignalChan.mk 1 0).send =
      { SignalChan.mk 1 0 with blocked := (SignalChan.mk 1 0).blocked + 1 } ∧
    (SignalChan.mk 1 0).send.pendingSignals =
      (SignalChan.mk 1 0).pendingSignals + 1 ∧
    (∀ n : Nat, (postN n).pendingSignals = n) ∧
    (∀ n : Nat, (postN n).buffered ≤ chanCapacity) :=
  c1_duplicate_post_queued_not_dropped (SignalChan.mk 1 0) rfl

/-- Claim C2: for every call-start and call-end event whose
`Event-Date-Timestamp` header parses as an int64 number of
microseconds `t`, the instant written to storage equals
`floor(t/1e6)` seconds past the epoch plus `(t mod 1e6) * 1000`
nanoseconds. -/
theorem c2_event_time_written (db : List Call) (msg : Message)
    (uuid : String) (t : Int)
    (h : parseInt64 (msg.getHeader "Event-Date-Timestamp") = some t) :
    (handleChannelCreate db msg uuid).writtenTimes = [specEventTimeNs t] ∧
    (handleChannelHangup db msg uuid).writtenTimes = [specEventTimeNs t] := by
  constructor
  · simp only [HandlerResult.writtenTimes, handleChannelCreate_of_parse db msg uuid t h]
    simp [goEventTimeNs_eq_spec]
  · simp only [HandlerResult.writtenTimes, handleChannelHangup_of_parse db msg uuid t h]
    simp [goEventTimeNs_eq_spec]

/-- Witness for the claim C2 theorem: the scenario event with
`Event-Date-Timestamp: 1000000`. -/
theorem c2_event_time_written_witness :
    (handleChannelCreate [] ⟨[("Event-Date-Timestamp", "1000000")]⟩ "abc").writtenTimes
      = [specEventTimeNs 1000000] ∧
    (handleChannelHangup [] ⟨[("Event-Date-Timestamp", "1000000")]⟩ "abc").writtenTimes
      = [specEventTimeNs 1000000] :=
  c2_event_time_written [] ⟨[("Event-Date-Timestamp", "1000000")]⟩ "abc" 1000000
    (by decide)

/-- Claim C3: for every event whose `Event-Date-Timestamp` header is
absent (the transport returns `""`) or does not parse as an integer,
both the call-start and the call-end handler discard the event and
make no storage call — no insert, no update, database unchanged. -/
theorem c3_malformed_timestamp_discards (db : List Call) (msg : Message)
    (uuid : String)
    (h : parseInt64 (msg.getHeader "Event-Date-Timestamp") = none) :
    (handleChannelCreate db msg uuid).storageCalls = [] ∧
    (handleChannelCreate db msg uuid).db = db ∧
    (handleChannelHangup db msg uuid).storageCalls = [] ∧
    (handleChannelHangup db msg uuid).db = db := by
  obtain ⟨hc1, hc2⟩ := handleChannelCreate_of_parse_fail db msg uuid h
  obtain ⟨hh1, hh2⟩ := handleChannelHangup_of_parse_fail db msg uuid h
  exact ⟨hc1, hc2, hh1, hh2⟩

/-- Witness for the claim C3 theorem: an event whose timestamp header
holds the non-numeric value `"not-a-number"`. -/
theorem c3_malformed_timestamp_discards_witness :
    (handleChannelCreate [] ⟨[("Event-Date-Timestamp", "not-a-number")]⟩ "u1").storageCalls = [] ∧
    (handleChannelCreate [] ⟨[("Event-Date-Timestamp", "not-a-number")]⟩ "u1").db = [] ∧
    (handleChannelHangup [] ⟨[("Event-Date-Timestamp", "not-a-number")]⟩ "u1").storageCalls = [] ∧
    (handleChannelHangup [] ⟨[("Event-Date-Timestamp", "not-a-number")]⟩ "u1").db = [] :=
  c3_malformed_timestamp_discards [] ⟨[("Event-Date-Timestamp", "not-a-number")]⟩ "u1"
    (by decide)

/-- Claim C4, counterexample.  The claim states that when a connection
attempt succeeds but the subsequent event subscription fails, the
reconnection manager schedules a delayed re-signal after 5 time-units;
in the source that branch posts `c.reconnect <- struct{}{}` directly,
an immediate re-signal with no delay. -/
theorem c4_delayed_resignal_counterexample :
    ¬ reconnectAttempt true false = Resignal.delayed 5 := by
  decide

/-- Claim C4, amended.  A failed connection attempt schedules a
delayed re-signal after 5 time-units; a successful attempt whose event
subscription fails posts an immediate re-signal instead. -/
theorem c4_resignal_policy (connectOk subscribeOk : Bool) :
    (connectOk = false →
      reconnectAttempt connectOk subscribeOk = Resignal.delayed 5) ∧
    (connectOk = true → subscribeOk = false →
      reconnectAttempt connectOk subscribeOk = Resignal.immediate) := by
  cases connectOk <;> cases subscribeOk <;>
    exact ⟨fun h => by simp_all [reconnectAttempt], fun h1 h2 => by simp_all [reconnectAttempt]⟩

/-- Witness for the amended claim C4 theorem at both failure modes. -/
theorem c4_resignal_policy_witness :
    reconnectAttempt false true = Resignal.delayed 5 ∧
    reconnectAttempt true false = Resignal.immediate :=
  ⟨(c4_resignal_policy false true).1 rfl, (c4_resignal_policy true false).2 rfl rfl⟩

/-- Claim C5: for every `CHANNEL_CREATE` or `CHANNEL_HANGUP` event
whose `Unique-ID` header is empty or missing, the dispatcher drops the
event with zero storage calls and emits exactly one log entry at
elevated (emitted, i.e. info-or-above) severity; every other event
kind missing the identifier is dropped with no log entry at all. -/
theorem c5_missing_identifier_policy (db : List Call) (msg : Message)
    (h : msg.getHeader "Unique-ID" = "") :
    (handleEvent db msg).storageCalls = [] ∧
    (handleEvent db msg).db = db ∧
    ((msg.getHeader "Event-Name" = "CHANNEL_CREATE" ∨
        msg.getHeader "Event-Name" = "CHANNEL_HANGUP") →
      ((handleEvent db msg).logs.filter (fun e => e.level.elevated)).length = 1) ∧
    (¬ (msg.getHeader "Event-Name" = "CHANNEL_CREATE" ∨
        msg.getHeader "Event-Name" = "CHANNEL_HANGUP") →
      (handleEvent db msg).logs = []) := by
  unfold handleEvent
  rw [if_pos h]
  by_cases hk : msg.getHeader "Event-Name" = "CHANNEL_CREATE" ∨
      msg.getHeader "Event-Name" = "CHANNEL_HANGUP"
  · rw [if_pos hk]
    exact ⟨rfl, rfl, fun _ => rfl, fun hn => absurd hk hn⟩
  · rw [if_neg hk]
    exact ⟨rfl, rfl, fun hkk => absurd hkk hk, fun _ => rfl⟩

/-- Witness for the claim C5 theorem: a `CHANNEL_CREATE` event with no
`Unique-ID` header. -/
theorem c5_missing_identifier_policy_witness :
    (handleEvent [] ⟨[("Event-Name", "CHANNEL_CREATE")]⟩).storageCalls = [] ∧
    (handleEvent [] ⟨[("Event-Name", "CHANNEL_CREATE")]⟩).db = [] ∧
    ((Message.getHeader ⟨[("Event-Name", "CHANNEL_CREATE")]⟩ "Event-Name" = "CHANNEL_CREATE" ∨
        Message.getHeader ⟨[("Event-Name", "CHANNEL_CREATE")]⟩ "Event-Name" = "CHANNEL_HANGUP") →
      ((handleEvent [] ⟨[("Event-Name", "CHANNEL_CREATE")]⟩).logs.filter
        (fun e => e.level.elevated)).length = 1) ∧
    (¬ (Message.getHeader ⟨[("Event-Name", "CHANNEL_CREATE")]⟩ "Event-Name" = "CHANNEL_CREATE" ∨
        Message.getHeader ⟨[("Event-Name", "CHANNEL_CREATE")]⟩ "Event-Name" = "CHANNEL_HANGUP") →
      (handleEvent [] ⟨[("Event-Name", "CHANNEL_CREATE")]⟩).logs = []) :=
  c5_missing_identifier_policy [] ⟨[("Event-Name", "CHANNEL_CREATE")]⟩ (by decide)

/-- Claim C6: every event whose `Event-Name` is neither
`CHANNEL_CREATE` nor `CHANNEL_HANGUP` is dropped without error: zero
storage calls, database unchanged, and zero log entries (in particular
zero at elevated severity). -/
theorem c6_unknown_kind_silent (db : List Call) (msg : Message)
    (h1 : msg.getHeader "Event-Name" ≠ "CHANNEL_CREATE")
    (h2 : msg.getHeader "Event-Name" ≠ "CHANNEL_HANGUP") :
    (handleEvent db msg).storageCalls = [] ∧
    (handleEvent db msg).db = db ∧
    (handleEvent db msg).logs = [] ∧
    (handleEvent db msg).logs.filter (fun e => e.level.elevated) = [] := by
  unfold handleEvent
  have hk : ¬ (msg.getHeader "Event-Name" = "CHANNEL_CREATE" ∨
      msg.getHeader "Event-Name" = "CHANNEL_HANGUP") := by
    simp [h1, h2]
  by_cases hu : msg.getHeader "Unique-ID" = ""
  · rw [if_pos hu, if_neg hk]
    exact ⟨rfl, rfl, rfl, rfl⟩
  · rw [if_neg hu, if_neg h1, if_neg h2, if_neg hk]
    exact ⟨rfl, rfl, rfl, rfl⟩

/-- Witness for the claim C6 theorem: the scenario `HEARTBEAT` event. -/
theorem c6_unknown_kind_silent_witness :
    (handleEvent [] ⟨[("Event-Name", "HEARTBEAT"), ("Unique-ID", "u1")]⟩).storageCalls = [] ∧
    (handleEvent [] ⟨[("Event-Name", "HEARTBEAT"), ("Unique-ID", "u1")]⟩).db = [] ∧
    (handleEvent [] ⟨[("Event-Name", "HEARTBEAT"), ("Unique-ID", "u1")]⟩).logs = [] ∧
    (handleEvent [] ⟨[("Event-Name", "HEARTBEAT"), ("Unique-ID", "u1")]⟩).logs.filter
      (fun e => e.level.elevated) = [] :=
  c6_unknown_kind_silent [] ⟨[("Event-Name", "HEARTBEAT"), ("Unique-ID", "u1")]⟩
    (by decide) (by decide)

/-- Claim C7: for every call-end event (with a parsable timestamp)
whose call identifier matches no stored call record, the storage
update affects zero rows, that outcome is logged as a warning, no
error comes back from the update operation, and the call-end handler
itself emits no error-level log entry. -/
theorem c7_hangup_without_matching_record (db : List Call) (msg : Message)
    (uuid : String) (t : Int)
    (hparse : parseInt64 (msg.getHeader "Event-Date-Timestamp") = some t)
    (hmiss : ∀ r ∈ db, r.uuid ≠ uuid) :
    (updateCallHangup db uuid (goEventTimeNs t) (msg.getHeader "Hangup-Cause")).rowsAffected = 0 ∧
    (updateCallHangup db uuid (goEventTimeNs t) (msg.getHeader "Hangup-Cause")).err = none ∧
    LogEntry.mk .warn "No call record found to update for hangup" ∈
      (updateCallHangup db uuid (goEventTimeNs t) (msg.getHeader "Hangup-Cause")).logs ∧
    ∀ e ∈ (handleChannelHangup db msg uuid).logs, e.level ≠ LogLevel.error := by
  have hfil : db.filter (fun r => r.uuid = uuid) = [] := by
    rw [List.filter_eq_nil_iff]
    intro a ha
    simpa using hmiss a ha
  have hlogs : (updateCallHangup db uuid (goEventTimeNs t) (msg.getHeader "Hangup-Cause")).logs =
      [LogEntry.mk .warn "No call record found to update for hangup",
       LogEntry.mk .info "Call record updated with hangup info"] := by
    unfold updateCallHangup
    rw [hfil]
    rfl
  have haff : (updateCallHangup db uuid (goEventTimeNs t) (msg.getHeader "Hangup-Cause")).rowsAffected = 0 := by
    unfold updateCallHangup
    rw [hfil]
    rfl
  refine ⟨haff, rfl, ?_, ?_⟩
  · rw [hlogs]
    simp
  · intro e he
    rw [handleChannelHangup_logs_of_parse db msg uuid t hparse, hlogs] at he
    simp at he
    rcases he with rfl | rfl | rfl | rfl | rfl <;> decide

/-- Witness for the claim C7 theorem: the scenario hangup event
against an empty call table. -/
theorem c7_hangup_without_matching_record_witness :
    (updateCallHangup [] "abc" (goEventTimeNs 5000000)
      (Message.getHeader ⟨[("Event-Date-Timestamp", "5000000"), ("Hangup-Cause", "NORMAL_CLEARING")]⟩ "Hangup-Cause")).rowsAffected = 0 ∧
    (updateCallHangup [] "abc" (goEventTimeNs 5000000)
      (Message.getHeader ⟨[("Event-Date-Timestamp", "5000000"), ("Hangup-Cause", "NORMAL_CLEARING")]⟩ "Hangup-Cause")).err = none ∧
    LogEntry.mk .warn "No call record found to update for hangup" ∈
      (updateCallHangup [] "abc" (goEventTimeNs 5000000)
        (Message.getHeader ⟨[("Event-Date-Timestamp", "5000000"), ("Hangup-Cause", "NORMAL_CLEARING")]⟩ "Hangup-Cause")).logs ∧
    ∀ e ∈ (handleChannelHangup []
        ⟨[("Event-Date-Timestamp", "5000000"), ("Hangup-Cause", "NORMAL_CLEARING")]⟩ "abc").logs,
      e.level ≠ LogLevel.error :=
  c7_hangup_without_matching_record []
    ⟨[("Event-Date-Timestamp", "5000000"), ("Hangup-Cause", "NORMAL_CLEARING")]⟩ "abc" 5000000
    (by decide) (by simp)

/-- Claim C8: for every GET /calls request, the limit passed to
storage is the query parameter's integer value when it lies in
[1, 100] and the default 10 otherwise (absent, non-numeric, zero,
negative, or above 100); the offset is the parameter's value when it
is a non-negative integer and 0 otherwise.  `claimLimit`/`claimOffset`
restate the claim's words; the handler's computations agree with them
on every input. -/
theorem c8_pagination_parameters (limitParam offsetParam : Option String) :
    effectiveLimit limitParam = claimLimit limitParam ∧
    effectiveOffset offsetParam = claimOffset offsetParam := by
  constructor
  · cases limitParam with
    | none => decide
    | some s =>
      cases hv : parseInt64 s with
      | none => simp [effectiveLimit, claimLimit, defaultLimit, hv]
      | some v =>
        simp only [effectiveLimit, claimLimit, defaultLimit, maxLimit, Option.getD_some, hv]
        split_ifs <;> omega
  · cases offsetParam with
    | none => decide
    | some s =>
      cases hv : parseInt64 s with
      | none => simp [effectiveOffset, claimOffset, defaultOffset, hv]
      | some v =>
        simp only [effectiveOffset, claimOffset, defaultOffset, Option.getD_some, hv]
        split_ifs <;> omega

/-- Claim C9: GET /calls never returns a null body on success; when
the store reports no rows (the nil slice), the handler responds
HTTP 200 with the empty JSON list, not null. -/
theorem c9_no_null_body (res : Except Unit (Option (List Call))) :
    getCallsRespond (Except.ok none) = ⟨200, JsonBody.jcalls []⟩ ∧
    (getCallsRespond res).body ≠ JsonBody.jnull := by
  refine ⟨rfl, ?_⟩
  cases res with
  | error e => simp [getCallsRespond]
  | ok calls => cases calls <;> simp [getCallsRespond, renderCallSlice]

/-- Claim C10: `Client.Close` with no connection handle held (never
connected, or already torn down) returns the nil error, so closing is
always safe at the public interface. -/
theorem c10_close_without_connection : clientClose none = none := rfl

end GoEsl
